import Mathlib

/-!
Verification of the alz-mri-modal analysis service against its specification.

The Python sources under src/app are shallowly embedded: Python floats are
modelled as rationals (ℚ), Python ints as ℤ, raised exceptions as values of
an explicit error type carried in Except, and the pieces of filesystem and
network state a function reads are passed as explicit arguments.  Python
string operations (split, strip, startswith, replace on one-character
patterns) are modelled by structural functions on List Char so that every
definition evaluates by kernel reduction.
-/

namespace AlzMRI

/-- Python exceptions that the embedded code can raise, by kind and message
or offending name/path. -/
inductive PyError where
  | nameError (name : String)
  | fileNotFoundError (path : String)
  | valueError (msg : String)
  | runtimeError (msg : String)
deriving DecidableEq, Repr

/-- Rendering of a PyError as Python str(e), used by the web handlers that
turn a caught exception into an error message. -/
def errorMessage : PyError → String
  | .nameError n => "name \x27" ++ n ++ "\x27 is not defined"
  | .fileNotFoundError p => "[Errno 2] No such file or directory: \x27" ++ p ++ "\x27"
  | .valueError m => m
  | .runtimeError m => m

/-- Stage label returned by the first branch of predict_stage
(src/app/fastsurfer.py line 120). -/
def alzheimersLabel : String := "Alzheimer\x27s"

/-- Stage label returned by the second branch of predict_stage (line 122). -/
def mciLabel : String := "MCI (Mild Cognitive Impairment)"

/-- Stage label returned by the third branch of predict_stage (line 124). -/
def normalLabel : String := "Normal Cognition"

/-- Stage label returned by the final fallthrough of predict_stage (line 125). -/
def uncertainLabel : String := "Uncertain - Requires further evaluation"

/-- The rational number one half, given directly in reduced form so that
comparisons against it evaluate definitionally. -/
def half : ℚ := Rat.mk' 1 2 (by decide) (by decide)

/-- Embedding of predict_stage (src/app/fastsurfer.py lines 110-125).
The three range checks raise ValueError exactly as in the source; the
decision cascade afterwards is translated condition for condition, in
source order.  The source literal 0.5 is written as the reduced rational
half (see half_eq). -/
def predict_stage (mmse : ℤ) (cdr adas : ℚ) : Except PyError String :=
  if ¬ (0 ≤ mmse ∧ mmse ≤ 30) then .error (.valueError "MMSE must be between 0-30")
  else if ¬ (0 ≤ cdr ∧ cdr ≤ 3) then .error (.valueError "CDR must be between 0-3")
  else if ¬ (0 ≤ adas ∧ adas ≤ 85) then .error (.valueError "ADAS-Cog must be between 0-85")
  else if 1 ≤ cdr ∨ mmse < 21 ∨ 35 < adas then .ok alzheimersLabel
  else if (half ≤ cdr ∧ cdr < 1) ∨ (21 ≤ mmse ∧ mmse < 26) then .ok mciLabel
  else if cdr = 0 ∧ 26 ≤ mmse then .ok normalLabel
  else .ok uncertainLabel

/-- The validated input domain of the classifier, as the specification
states it: MMSE in [0,30], CDR in [0,3], ADAS-Cog in [0,85]. -/
def validScores (mmse : ℤ) (cdr adas : ℚ) : Prop :=
  0 ≤ mmse ∧ mmse ≤ 30 ∧ 0 ≤ cdr ∧ cdr ≤ 3 ∧ 0 ≤ adas ∧ adas ≤ 85

instance (mmse : ℤ) (cdr adas : ℚ) : Decidable (validScores mmse cdr adas) := by
  unfold validScores
  infer_instance

/-- The decision cascade exactly as the specification words it
(first match wins), written from the spec for comparison with the code. -/
def claimClassify (mmse : ℤ) (cdr adas : ℚ) : String :=
  if 1 ≤ cdr ∨ mmse < 21 ∨ 35 < adas then alzheimersLabel
  else if (1/2 ≤ cdr ∧ cdr < 1) ∨ (21 ≤ mmse ∧ mmse < 26) then mciLabel
  else if cdr = 0 ∧ 26 ≤ mmse then normalLabel
  else uncertainLabel

/-- Numeric value of a list of ASCII digit characters. -/
def digitsToNat (ds : List Char) : ℕ :=
  ds.foldl (fun a c => a * 10 + (c.toNat - 48)) 0

/-- Splits off the leading run of digits of a character list. -/
def splitDigits : List Char → List Char × List Char
  | [] => ([], [])
  | c :: cs =>
    if c.isDigit then
      let p := splitDigits cs
      (c :: p.1, p.2)
    else ([], c :: cs)

/-- Parses the optional exponent suffix of a Python float literal; an empty
remainder means exponent 0, anything other than e/E followed by an optional
sign and digits is rejected. -/
def parseExponent : List Char → Option ℤ
  | [] => some 0
  | c :: cs =>
    if c = 'e' ∨ c = 'E' then
      match cs with
      | '+' :: ds => if ds ≠ [] ∧ ds.all Char.isDigit then some (digitsToNat ds) else none
      | '-' :: ds => if ds ≠ [] ∧ ds.all Char.isDigit then some (-(digitsToNat ds : ℤ)) else none
      | ds => if ds ≠ [] ∧ ds.all Char.isDigit then some (digitsToNat ds) else none
    else none

/-- Parses an unsigned Python float literal: digits, an optional fractional
part, and an optional exponent; at least one digit must be present. -/
def parseUnsignedFloat (cs : List Char) : Option ℚ :=
  let ip := splitDigits cs
  let fr := match ip.2 with
    | '.' :: r => splitDigits r
    | _ => ([], ip.2)
  if ip.1 = [] ∧ fr.1 = [] then none
  else
    (parseExponent fr.2).map (fun e =>
      ((digitsToNat ip.1 : ℚ) + (digitsToNat fr.1 : ℚ) / 10 ^ fr.1.length) * 10 ^ e)

/-- Strips leading and trailing whitespace, as Python str.strip and the
whitespace handling of float() do. -/
def trimChars (cs : List Char) : List Char :=
  ((cs.dropWhile Char.isWhitespace).reverse.dropWhile Char.isWhitespace).reverse

/-- Embedding of Python float() on the decimal literals that occur in
statistics files: optional surrounding whitespace, optional sign, digits
with optional fraction and exponent.  Returns none where float() raises
ValueError.  (The inf/nan/underscore forms float() also accepts never
appear in this data and are modelled as absent.) -/
def parseFloatChars (cs : List Char) : Option ℚ :=
  match trimChars cs with
  | '+' :: rest => parseUnsignedFloat rest
  | '-' :: rest => (parseUnsignedFloat rest).map (fun q => -q)
  | rest => parseUnsignedFloat rest

/-- Helper for splitFields: acc is the current word, reversed. -/
def splitFieldsAux : List Char → List Char → List (List Char)
  | [], acc => if acc = [] then [] else [acc.reverse]
  | c :: cs, acc =>
    if c.isWhitespace then
      if acc = [] then splitFieldsAux cs []
      else acc.reverse :: splitFieldsAux cs []
    else splitFieldsAux cs (c :: acc)

/-- Python str.split() with no argument: splits on runs of whitespace and
never yields empty fields. -/
def splitFields (cs : List Char) : List (List Char) :=
  splitFieldsAux cs []

/-- The whitespace-delimited fields of a statistics line
(line.split() in the source). -/
def fields (line : String) : List (List Char) :=
  splitFields line.toList

/-- A line the parser skips before splitting: comment lines starting with
the hash character, and blank lines (Python: line.startswith("#") or not
line.strip()). -/
def isSkipLine (line : String) : Bool :=
  ['#'].isPrefixOf line.toList || trimChars line.toList == []

/-- One iteration of the aseg+DKT.stats loop (src/app/fastsurfer.py lines
62-70): skip comments and blanks, split, require at least 5 fields, parse
fields[3] as the volume recorded under the region name fields[4]; a
ValueError from float() is swallowed and the line skipped. -/
def parseAsegLine (line : String) : Option (String × ℚ) :=
  if isSkipLine line then none
  else
    let ps := fields line
    if 5 ≤ ps.length then
      (parseFloatChars (ps.getD 3 [])).map (fun v => (String.mk (ps.getD 4 []), v))
    else none

/-- One iteration of the hemisphere aparc.stats loop (lines 80-88): same
skipping, at least 6 fields, fields[5] parsed as a thickness value. -/
def parseThicknessLine (line : String) : Option ℚ :=
  if isSkipLine line then none
  else
    let ps := fields line
    if 6 ≤ ps.length then parseFloatChars (ps.getD 5 []) else none

/-- The region entries recorded from the aseg+DKT.stats lines, in file
order. -/
def asegEntries (lines : List String) : List (String × ℚ) :=
  lines.filterMap parseAsegLine

/-- metrics.get(key, 0) after the parsing loop.  Python dict assignment
lets the last line for a key win, which lookup on the reversed entry
list reproduces. -/
def metricsGet (lines : List String) (key : String) : ℚ :=
  (((asegEntries lines).reverse).lookup key).getD 0

/-- Rounding to two decimal places, round(x, 2) in the source.  Python
rounds ties to even; no quantity in this development lands on a tie, so
nearest-integer rounding is used. -/
def round2 (q : ℚ) : ℚ := (round (q * 100) : ℤ) / 100

/-- Embedding of safe_divide (src/app/fastsurfer.py lines 106-108): zero
denominators give 0.0 outright, others divide with 1e-6 added to the
denominator and round to two decimals. -/
def safe_divide (numerator denominator : ℚ) : ℚ :=
  if denominator ≠ 0 then round2 (numerator / (denominator + 1/1000000)) else 0

/-- The slice of the filesystem parse_stats reads: the line contents of the
three statistics files of a subject, none when the file is absent. -/
structure StatsDir where
  aseg : Option (List String)
  lhAparc : Option (List String)
  rhAparc : Option (List String)

/-- The five fixed biomarkers returned by parse_stats, mirroring the keys
of the returned dict. -/
structure Biomarkers where
  leftHippocampus : ℚ
  rightHippocampus : ℚ
  asymmetryIndex : ℚ
  evansIndex : ℚ
  averageCorticalThickness : Option ℚ
deriving DecidableEq, Repr

/-- The thickness values collected over both hemisphere files, lh first
then rh, as the loop at lines 75-88 produces them. -/
def thicknessValues (d : StatsDir) : List ℚ :=
  (match d.lhAparc with
    | some ls => ls.filterMap parseThicknessLine
    | none => []) ++
  (match d.rhAparc with
    | some ls => ls.filterMap parseThicknessLine
    | none => [])

/-- Embedding of parse_stats (src/app/fastsurfer.py lines 51-104). -/
def parse_stats (d : StatsDir) : Biomarkers :=
  let asegLines := d.aseg.getD []
  let lh_vol := metricsGet asegLines "Left-Hippocampus"
  let rh_vol := metricsGet asegLines "Right-Hippocampus"
  let lv_vol := metricsGet asegLines "Left-Lateral-Ventricle"
  let rv_vol := metricsGet asegLines "Right-Lateral-Ventricle"
  let thickness := thicknessValues d
  { leftHippocampus := lh_vol
    rightHippocampus := rh_vol
    asymmetryIndex := safe_divide |lh_vol - rh_vol| (max lh_vol rh_vol)
    evansIndex := safe_divide (lv_vol + rv_vol) (lh_vol + rh_vol)
    averageCorticalThickness :=
      if thickness = [] then none
      else some (round2 (thickness.sum / (thickness.length : ℚ))) }

/-- The volume recorded for a region of a subject, 0 when absent; names
the lookups parse_stats performs at lines 93-96. -/
def volumeOf (d : StatsDir) (key : String) : ℚ :=
  metricsGet (d.aseg.getD []) key

/-- The region entries as the specification words the parsing contract:
for each non-comment, non-blank line with at least 5 whitespace fields
whose field 3 parses as a number, record field 4 mapped to that number.
Written from the spec text, for comparison with asegEntries. -/
def specRegionEntries (lines : List String) : List (String × ℚ) :=
  lines.filterMap (fun line =>
    if isSkipLine line then none
    else
      match fields line with
      | _f0 :: _f1 :: _f2 :: f3 :: f4 :: _rest =>
        (parseFloatChars f3).map (fun v => (String.mk f4, v))
      | _ => none)

/-- A thickness line as the specification words it: a qualifying line with
at least 6 fields contributes float(fields[5]).  Written from the spec
text, for comparison with parseThicknessLine. -/
def specThicknessLine (line : String) : Option ℚ :=
  if isSkipLine line then none
  else
    match fields line with
    | _f0 :: _f1 :: _f2 :: _f3 :: _f4 :: f5 :: _rest => parseFloatChars f5
    | _ => none

/-- Thickness collection as the specification words it: each hemisphere
file present contributes its qualifying values, missing files contribute
nothing. -/
def specThicknessValues (d : StatsDir) : List ℚ :=
  (([d.lhAparc, d.rhAparc].map (fun o => (o.getD []).filterMap specThicknessLine)).flatten)

/-- Well-formed region-statistics input: no two recorded data lines carry
the same region name, as in a real statistics file. -/
def WellFormedStats (lines : List String) : Prop :=
  ((asegEntries lines).map Prod.fst).Nodup

/-- Per-character replacement, modelling Python str.replace for the
one-character patterns of the clean_text table. -/
def replaceChar (old : Char) (new : List Char) (cs : List Char) : List Char :=
  cs.foldr (fun c acc => if c = old then new ++ acc else c :: acc) []

/-- The replacement table of clean_text (src/app/fastsurfer.py lines
129-133), in Python dict insertion order; every pattern is a single
character. -/
def replacements : List (Char × String) :=
  [('’', "\x27"), ('“', "\""), ('”', "\""), ('–', "-"), ('—', "-"),
    ('…', "..."), ('é', "e"), ('ñ', "n"), ('°', " degrees")]

/-- Embedding of clean_text (lines 127-136): apply the replacement table
in order, then drop every character above U+00FF, as the final regex
substitution of [^\x00-\xff] with the empty string does. -/
def clean_text (text : String) : String :=
  let replaced := replacements.foldl
    (fun s p => String.mk (replaceChar p.1 p.2.toList s.toList)) text
  String.mk (replaced.toList.filter (fun c => c.toNat ≤ 255))

/-- Python str.split("\n"): the list of newline-separated segments,
including empty ones. -/
def splitLines : List Char → List (List Char)
  | [] => [[]]
  | c :: cs =>
    if c = '\n' then [] :: splitLines cs
    else
      match splitLines cs with
      | l :: ls => (c :: l) :: ls
      | [] => [[c]]

/-- One line of the PDF body: heading lines starting with hash-space are
emitted without that marker (pdf.cell of line[2:]), other lines as body
text (pdf.multi_cell); each cell ends the output line. -/
def renderLine (line : List Char) : List Char :=
  if ['#', ' '].isPrefixOf line then line.drop 2 ++ ['\n']
  else line ++ ['\n']

/-- The fixed ASCII scaffold an empty FPDF document starts from; its exact
bytes are owned by the fpdf library, only its presence and ASCII-ness
matter here. -/
def pdfHeader : String := "%PDF-1.3 report scaffold\n"

/-- Python str.encode("latin1"): succeeds exactly when every character is
at most U+00FF, else raises (modelled as none). -/
def latin1Encode (cs : List Char) : Option (List ℕ) :=
  if cs.all (fun c => c.toNat ≤ 255) then some (cs.map Char.toNat) else none

/-- Embedding of create_pdf (src/app/fastsurfer.py lines 138-158).  The
fpdf library is modelled as accumulating the rendered text of its cells
after a fixed ASCII scaffold; pdf.output(dest=S).encode(latin1) is
latin1Encode, and the except clause wraps any failure into RuntimeError. -/
def create_pdf (summary_text : String) : Except PyError (List ℕ) :=
  let cleaned := (clean_text summary_text).toList
  let content := pdfHeader.toList ++ ((splitLines cleaned).map renderLine).flatten
  match latin1Encode content with
  | some bytes => .ok bytes
  | none => .error (.runtimeError "Failed to generate PDF report")

/-- Fixed-width rendering of a rational with one decimal digit, modelling
the Python format specifier .1f used by the fallback summary. -/
def fmt1 (q : ℚ) : String :=
  let n : ℤ := round (q * 10)
  (if n < 0 then "-" else "") ++ toString (n.natAbs / 10) ++ "." ++ toString (n.natAbs % 10)

/-- The fallback template text before the interpolated stage label. -/
def fallbackPre : String :=
  "Clinical Report (Local Analysis)\n    \n**Key Findings:**\n- Cognitive Stage: "

/-- The fallback template text after the interpolated stage label: the
biomarker summary lines and the static recommendations list. -/
def fallbackTail (biomarkers : Biomarkers) : String :=
  "\n- Hippocampal Volume: " ++ fmt1 biomarkers.leftHippocampus ++ " (L) / " ++
  fmt1 biomarkers.rightHippocampus ++ " (R) mm³\n- Ventricular Enlargement: " ++
  (if biomarkers.evansIndex > 3/10 then "Abnormal" else "Normal") ++
  "\n\n**Recommendations:**\n1. Clinical correlation required\n2. Follow-up neuropsychological testing\n3. Consider CSF biomarker analysis"

/-- Embedding of generate_fallback_summary (src/app/fastsurfer.py lines
206-219): classify the stage (propagating its ValueError as the source
does) and interpolate it into the fixed local f-string template, split
here into the text before and after the stage placeholder. -/
def generate_fallback_summary (biomarkers : Biomarkers) (mmse : ℤ) (cdr adas : ℚ) :
    Except PyError String :=
  (predict_stage mmse cdr adas).map (fun stage =>
    fallbackPre ++ stage ++ fallbackTail biomarkers)

/-- Outcome of the one chat-completion request generate_summary issues;
the two caught exception types are distinguished from any other failure. -/
inductive RemoteResult where
  | success (text : String)
  | apiConnectionError
  | rateLimitError
  | otherFailure (e : PyError)

/-- Embedding of generate_summary (src/app/fastsurfer.py lines 160-204):
return the remote text verbatim on success, fall back to the local summary
on APIConnectionError or RateLimitError, propagate anything else.  The
prompt it builds is consumed only by the remote service and does not
influence this control flow. -/
def generate_summary (remote : RemoteResult) (biomarkers : Biomarkers)
    (mmse : ℤ) (cdr adas : ℚ) : Except PyError String :=
  match remote with
  | .success text => .ok text
  | .apiConnectionError => generate_fallback_summary biomarkers mmse cdr adas
  | .rateLimitError => generate_fallback_summary biomarkers mmse cdr adas
  | .otherFailure e => .error e

/-- The base64 alphabet in index order. -/
def base64Alphabet : List Char :=
  "ABCDEFGHIJKLMNOPQRSTUVWXYZabcdefghijklmnopqrstuvwxyz0123456789+/".toList

/-- Character of the base64 alphabet at a six-bit index. -/
def base64Char (i : ℕ) : Char := base64Alphabet.getD i 'A'

/-- Standard base64 of a byte list, modelling base64.b64encode. -/
def base64Encode : List ℕ → String
  | [] => ""
  | [b1] =>
    String.mk [base64Char (b1 / 4), base64Char (b1 % 4 * 16), '=', '=']
  | [b1, b2] =>
    String.mk [base64Char (b1 / 4), base64Char (b1 % 4 * 16 + b2 / 16),
      base64Char (b2 % 16 * 4), '=']
  | b1 :: b2 :: b3 :: rest =>
    String.mk [base64Char (b1 / 4), base64Char (b1 % 4 * 16 + b2 / 16),
      base64Char (b2 % 16 * 4 + b3 / 64), base64Char (b3 % 64)] ++ base64Encode rest

/-- The report dict generate_report is written to return (src/app/main.py
lines 64-76). -/
structure Report where
  biomarkers : Biomarkers
  stage : String
  summary : String
  segmentation : String
  pdf_report : String

/-- Embedding of generate_report (src/app/main.py lines 53-76).  Inputs
are the statistics directory, the bytes of the segmentation preview (none
when the file is missing, making the open at line 60 raise), and the
remote outcome.  The dict values are evaluated in source order; the
pdf_report entry evaluates create_pdf(summary), and no local name summary
is ever bound in the function, so that evaluation raises NameError before
a report value is assembled. -/
def generate_report (stats : StatsDir) (segPng : Option (List ℕ)) (remote : RemoteResult)
    (subject_id : String) (mmse : ℤ) (cdr adas_cog : ℚ) : Except PyError Report :=
  let biomarkers := parse_stats stats
  match segPng with
  | none => .error (.fileNotFoundError ("/data/" ++ subject_id ++ "/mri/aparc+aseg.png"))
  | some png =>
    let _seg_base64 := base64Encode png
    do
      let _stage ← predict_stage mmse cdr adas_cog
      let _summaryValue ← generate_summary remote biomarkers mmse cdr adas_cog
      .error (.nameError "summary")

/-- The JSON the /api/analyze handler answers with: the report on success,
and status error with str(e) when generate_report raised (src/app/main.py
lines 98-120). -/
structure AnalyzeResponse where
  status : String
  data : Option Report
  message : Option String

/-- Embedding of analyze_results (src/app/main.py lines 98-120). -/
def analyze_results (stats : StatsDir) (segPng : Option (List ℕ)) (remote : RemoteResult)
    (subject_id : String) (mmse : ℤ) (cdr adas_cog : ℚ) : AnalyzeResponse :=
  match generate_report stats segPng remote subject_id mmse cdr adas_cog with
  | .ok report => { status := "success", data := some report, message := none }
  | .error e => { status := "error", data := none, message := some (errorMessage e) }

/-- Embedding of validate_nifti_filename (src/app/utils.py lines 5-7):
the regex accepts exactly the filenames ending in .nii or .nii.gz (for
the newline-free names an upload carries). -/
def validate_nifti_filename (filename : String) : Bool :=
  (".nii".toList).isSuffixOf filename.toList ||
    (".nii.gz".toList).isSuffixOf filename.toList

/-- Result of the external FastSurfer container run started by
process_mri. -/
inductive FastsurferOutcome where
  | completed
  | failed (diagnostics : String)

/-- The JSON the /api/upload handler answers with (src/app/main.py lines
87-96). -/
structure UploadResponse where
  status : String
  subject_id : Option String
  message : String
deriving DecidableEq, Repr

/-- Embedding of process_mri (src/app/main.py lines 36-47): a fresh
subject id is minted, the payload is written under the given filename, and
run_fastsurfer is invoked on it; the write and the container run are the
external effects whose outcome is the parameter.  No part of it consults
validate_nifti_filename. -/
def process_mri (freshId : String) (outcome : FastsurferOutcome)
    (_file_contents : List ℕ) (_filename : String) : Except PyError String :=
  let subject_id := "sub-" ++ freshId
  match outcome with
  | .completed => .ok subject_id
  | .failed diag => .error (.runtimeError ("FastSurfer processing failed: " ++ diag))

/-- Embedding of upload_mri (src/app/main.py lines 80-96): every request
is forwarded to process_mri; only an exception from it produces an error
response. -/
def upload_mri (freshId : String) (outcome : FastsurferOutcome)
    (file_contents : List ℕ) (filename : String) : UploadResponse :=
  match process_mri freshId outcome file_contents filename with
  | .ok sid => { status := "success", subject_id := some sid, message := "MRI processing started" }
  | .error e => { status := "error", subject_id := none, message := errorMessage e }

/-- Concrete statistics directory with hippocampal volumes 3 and 2, used
to evaluate the index formulas at explicit inputs. -/
def epsilonStats : StatsDir :=
  { aseg := some ["1 2 3 3 Left-Hippocampus", "1 2 3 2 Right-Hippocampus"]
    lhAparc := none
    rhAparc := none }

theorem half_eq : half = 1/2 := by
  rw [← Rat.num_div_den half, show half.num = 1 from rfl, show half.den = 2 from rfl]
  norm_num

/-- C4 counterexample: with hippocampal volumes 3 and 2 the asymmetry
index the code computes is 0.33, not the exact quotient 1/3 the claim
states for a nonzero denominator. -/
theorem parse_stats_asymmetry_not_exact :
    (parse_stats epsilonStats).leftHippocampus = 3 ∧
    (parse_stats epsilonStats).rightHippocampus = 2 ∧
    (parse_stats epsilonStats).asymmetryIndex ≠
      |(parse_stats epsilonStats).leftHippocampus - (parse_stats epsilonStats).rightHippocampus| /
        max (parse_stats epsilonStats).leftHippocampus (parse_stats epsilonStats).rightHippocampus := by
  refine ⟨by with_unfolding_all rfl, by with_unfolding_all rfl, ?_⟩
  rw [show (parse_stats epsilonStats).asymmetryIndex = 33/100 by with_unfolding_all rfl,
    show (parse_stats epsilonStats).leftHippocampus = 3 by with_unfolding_all rfl,
    show (parse_stats epsilonStats).rightHippocampus = 2 by with_unfolding_all rfl]
  rw [show |(3:ℚ) - 2| = 1 by norm_num, show max (3:ℚ) 2 = 3 by norm_num]
  norm_num

/-- C4 (amended): both indices follow the source formulas with the hard
zero-check on the denominator, but a nonzero denominator gets 1e-6 added
before the division and the quotient is rounded to two decimals. -/
theorem parse_stats_index_guards (d : StatsDir) :
    (parse_stats d).asymmetryIndex =
      (if max (volumeOf d "Left-Hippocampus") (volumeOf d "Right-Hippocampus") = 0 then 0
        else round2 (|volumeOf d "Left-Hippocampus" - volumeOf d "Right-Hippocampus"| /
          (max (volumeOf d "Left-Hippocampus") (volumeOf d "Right-Hippocampus") + 1/1000000))) ∧
    (parse_stats d).evansIndex =
      (if volumeOf d "Left-Hippocampus" + volumeOf d "Right-Hippocampus" = 0 then 0
        else round2 ((volumeOf d "Left-Lateral-Ventricle" + volumeOf d "Right-Lateral-Ventricle") /
          (volumeOf d "Left-Hippocampus" + volumeOf d "Right-Hippocampus" + 1/1000000))) := by
  constructor <;> simp [parse_stats, volumeOf, safe_divide, ite_not]

theorem parseThicknessLine_eq_spec (line : String) :
    parseThicknessLine line = specThicknessLine line := by
  unfold parseThicknessLine specThicknessLine
  by_cases hskip : isSkipLine line
  · simp [hskip]
  · simp only [hskip, Bool.false_eq_true, if_false]
    generalize fields line = ps
    rcases ps with _ | ⟨f0, _ | ⟨f1, _ | ⟨f2, _ | ⟨f3, _ | ⟨f4, _ | ⟨f5, rest⟩⟩⟩⟩⟩⟩ <;>
      simp [List.getD]

theorem asegEntries_eq_spec (lines : List String) :
    asegEntries lines = specRegionEntries lines := by
  unfold asegEntries specRegionEntries
  congr 1
  funext line
  unfold parseAsegLine
  by_cases hskip : isSkipLine line
  · simp [hskip]
  · simp only [hskip, Bool.false_eq_true, if_false]
    generalize fields line = ps
    rcases ps with _ | ⟨f0, _ | ⟨f1, _ | ⟨f2, _ | ⟨f3, _ | ⟨f4, rest⟩⟩⟩⟩⟩ <;>
      simp [List.getD]

/-- C7: the extractor equals its specification: recorded region entries
are exactly the qualifying lines' field-4/field-3 pairs (malformed and
short lines skipped), thickness values are the qualifying lines' field 5
over the hemisphere files present, the average thickness is the rounded
mean or null when no value was collected, and a directory with no
statistics files yields all-zero volumes and indices and a null
thickness. -/
theorem parse_stats_spec_characterization :
    (∀ lines, asegEntries lines = specRegionEntries lines) ∧
    (∀ d : StatsDir, thicknessValues d = specThicknessValues d) ∧
    (∀ d : StatsDir, (parse_stats d).averageCorticalThickness =
      (if thicknessValues d = [] then none
        else some (round2 ((thicknessValues d).sum / ((thicknessValues d).length : ℚ))))) ∧
    parse_stats ⟨none, none, none⟩ =
      { leftHippocampus := 0, rightHippocampus := 0, asymmetryIndex := 0,
        evansIndex := 0, averageCorticalThickness := none } := by
  refine ⟨asegEntries_eq_spec, ?_, fun d => rfl, by with_unfolding_all rfl⟩
  intro d
  unfold thicknessValues specThicknessValues
  rcases d with ⟨aseg, lhAparc, rhAparc⟩
  simp only [List.map_cons, List.map_nil, List.flatten]
  cases lhAparc <;> cases rhAparc <;>
    simp [List.filterMap_congr (fun l _ => parseThicknessLine_eq_spec l)]

theorem lookup_eq_of_perm {α β : Type} [BEq α] [LawfulBEq α] {l₁ l₂ : List (α × β)}
    (p : l₁.Perm l₂) (nd : (l₁.map Prod.fst).Nodup) (k : α) :
    l₁.lookup k = l₂.lookup k := by
  induction p with
  | nil => rfl
  | cons x p ih =>
    simp only [List.map_cons, List.nodup_cons] at nd
    by_cases h : k == x.1
    · simp [List.lookup, h]
    · simp only [List.lookup, h]
      exact ih nd.2
  | swap x y l =>
    simp only [List.map_cons, List.nodup_cons, List.mem_cons] at nd
    have hxy : y.1 ≠ x.1 := fun h => nd.1 (Or.inl h)
    by_cases h1 : k == y.1 <;> by_cases h2 : k == x.1
    · exact absurd ((eq_of_beq h1).symm.trans (eq_of_beq h2)) hxy
    · simp [List.lookup, h1, h2]
    · simp [List.lookup, h1, h2]
    · simp [List.lookup, h1, h2]
  | trans p₁ p₂ ih₁ ih₂ =>
    rw [ih₁ nd, ih₂ ((p₁.map Prod.fst).nodup_iff.mp nd)]

theorem metricsGet_perm {l₁ l₂ : List String} (p : l₁.Perm l₂)
    (nd : WellFormedStats l₁) (k : String) :
    metricsGet l₁ k = metricsGet l₂ k := by
  have pe : (asegEntries l₁).Perm (asegEntries l₂) := p.filterMap parseAsegLine
  have pr : (asegEntries l₁).reverse.Perm (asegEntries l₂).reverse :=
    ((asegEntries l₁).reverse_perm.trans pe).trans (asegEntries l₂).reverse_perm.symm
  have ndr : ((asegEntries l₁).reverse.map Prod.fst).Nodup := by
    rw [List.map_reverse, List.nodup_reverse]
    exact nd
  unfold metricsGet
  rw [lookup_eq_of_perm pr ndr k]

theorem parse_stats_aseg_ext {l₁ l₂ : List String} {lh rh : Option (List String)}
    (h : ∀ k, metricsGet l₁ k = metricsGet l₂ k) :
    parse_stats ⟨some l₁, lh, rh⟩ = parse_stats ⟨some l₂, lh, rh⟩ := by
  unfold parse_stats
  simp only [Option.getD_some, thicknessValues]
  rw [h "Left-Hippocampus", h "Right-Hippocampus", h "Left-Lateral-Ventricle",
    h "Right-Lateral-Ventricle"]

theorem filterMap_parseAsegLine_filter (lines : List String) :
    lines.filterMap parseAsegLine =
      (lines.filter (fun l => !(isSkipLine l))).filterMap parseAsegLine := by
  induction lines with
  | nil => rfl
  | cons l ls ih =>
    by_cases h : isSkipLine l
    · have hnone : parseAsegLine l = none := by simp [parseAsegLine, h]
      simp [List.filter_cons, h, List.filterMap_cons, hnone, ih]
    · simp [List.filter_cons, h, List.filterMap_cons, ih]

/-- C8: for well-formed region statistics (no duplicated region name), the
extractor's output is invariant under permuting the lines, and it depends
only on the non-comment, non-blank lines, so inserting or removing comment
and blank lines leaves it unchanged. -/
theorem parse_stats_line_invariance :
    (∀ (lines₁ lines₂ : List String) (lh rh : Option (List String)),
        lines₁.Perm lines₂ → WellFormedStats lines₁ →
        parse_stats ⟨some lines₁, lh, rh⟩ = parse_stats ⟨some lines₂, lh, rh⟩) ∧
    (∀ (lines₁ lines₂ : List String) (lh rh : Option (List String)),
        lines₁.filter (fun l => !(isSkipLine l)) = lines₂.filter (fun l => !(isSkipLine l)) →
        parse_stats ⟨some lines₁, lh, rh⟩ = parse_stats ⟨some lines₂, lh, rh⟩) := by
  constructor
  · intro l₁ l₂ lh rh p nd
    exact parse_stats_aseg_ext (fun k => metricsGet_perm p nd k)
  · intro l₁ l₂ lh rh hf
    refine parse_stats_aseg_ext (fun k => ?_)
    unfold metricsGet asegEntries
    rw [filterMap_parseAsegLine_filter l₁, filterMap_parseAsegLine_filter l₂, hf]

/-- C8 witness: swapping the two hippocampus lines, and dropping a comment
line, both leave the extracted biomarkers unchanged on a concrete
directory. -/
theorem parse_stats_line_invariance_witness :
    parse_stats ⟨some ["1 2 3 3 Left-Hippocampus", "1 2 3 2 Right-Hippocampus"], none, none⟩ =
      parse_stats ⟨some ["1 2 3 2 Right-Hippocampus", "1 2 3 3 Left-Hippocampus"], none, none⟩ ∧
    parse_stats ⟨some ["# comment", "1 2 3 3 Left-Hippocampus"], none, none⟩ =
      parse_stats ⟨some ["1 2 3 3 Left-Hippocampus"], none, none⟩ := by
  constructor
  · refine parse_stats_line_invariance.1 _ _ none none (List.Perm.swap _ _ _) ?_
    unfold WellFormedStats
    rw [show asegEntries ["1 2 3 3 Left-Hippocampus", "1 2 3 2 Right-Hippocampus"] =
      [("Left-Hippocampus", 3), ("Right-Hippocampus", 2)] from by with_unfolding_all rfl]
    decide
  · exact parse_stats_line_invariance.2 _ _ none none (by decide)

/-- C3 counterexample: on (mmse=30, cdr=0, adas=40) the classifier does
not return the Uncertain label, contrary to the claim. -/
theorem predict_stage_30_0_40_not_uncertain :
    predict_stage 30 0 40 ≠ .ok uncertainLabel := by
  intro h
  rw [show predict_stage 30 0 40 = .ok alzheimersLabel from rfl] at h
  exact absurd (Except.ok.inj h) (by decide)

/-- C3 (amended): on (mmse=30, cdr=0, adas=40) the classifier returns the
Alzheimer's label, because adas > 35 alone satisfies the first rule. -/
theorem predict_stage_30_0_40_alzheimers :
    predict_stage 30 0 40 = .ok alzheimersLabel := rfl

/-- C5: on the validated domain the classifier agrees with the
specification's ordered decision cascade (first match wins), and the three
stated boundary cases hold. -/
theorem predict_stage_matches_claimClassify :
    (∀ (mmse : ℤ) (cdr adas : ℚ), validScores mmse cdr adas →
        predict_stage mmse cdr adas = .ok (claimClassify mmse cdr adas)) ∧
    predict_stage 26 0 0 = .ok normalLabel ∧
    predict_stage 25 (1/2) 10 = .ok mciLabel ∧
    predict_stage 20 0 0 = .ok alzheimersLabel := by
  refine ⟨?_, rfl, by rw [← half_eq]; rfl, rfl⟩
  rintro m c a ⟨h1, h2, h3, h4, h5, h6⟩
  unfold predict_stage claimClassify
  rw [if_neg (not_not_intro ⟨h1, h2⟩), if_neg (not_not_intro ⟨h3, h4⟩),
    if_neg (not_not_intro ⟨h5, h6⟩), half_eq]
  split_ifs <;> rfl

/-- C5 witness: the cascade agreement evaluated at (mmse=24, cdr=0, adas=5). -/
theorem predict_stage_matches_claimClassify_witness :
    predict_stage 24 0 5 = .ok (claimClassify 24 0 5) :=
  predict_stage_matches_claimClassify.1 24 0 5 (by decide)

/-- C6: the classifier succeeds exactly on the in-range inputs, and the
three stated out-of-range inputs each raise the corresponding ValueError. -/
theorem predict_stage_total_iff_valid :
    (∀ (mmse : ℤ) (cdr adas : ℚ),
        (∃ s, predict_stage mmse cdr adas = .ok s) ↔ validScores mmse cdr adas) ∧
    predict_stage 31 0 0 = .error (.valueError "MMSE must be between 0-30") ∧
    predict_stage 30 (-1) 0 = .error (.valueError "CDR must be between 0-3") ∧
    predict_stage 30 0 86 = .error (.valueError "ADAS-Cog must be between 0-85") := by
  refine ⟨?_, rfl, rfl, rfl⟩
  intro m c a
  constructor
  · rintro ⟨s, hs⟩
    by_cases hA : 0 ≤ m ∧ m ≤ 30
    · by_cases hB : 0 ≤ c ∧ c ≤ 3
      · by_cases hC : 0 ≤ a ∧ a ≤ 85
        · exact ⟨hA.1, hA.2, hB.1, hB.2, hC.1, hC.2⟩
        · simp [predict_stage, hA, hB, hC] at hs
      · simp [predict_stage, hA, hB] at hs
    · simp [predict_stage, hA] at hs
  · rintro ⟨h1, h2, h3, h4, h5, h6⟩
    unfold predict_stage
    rw [if_neg (not_not_intro ⟨h1, h2⟩), if_neg (not_not_intro ⟨h3, h4⟩),
      if_neg (not_not_intro ⟨h5, h6⟩)]
    split_ifs <;> exact ⟨_, rfl⟩

theorem predict_stage_ok_of_valid {mmse : ℤ} {cdr adas : ℚ}
    (hv : validScores mmse cdr adas) : ∃ s, predict_stage mmse cdr adas = .ok s := by
  obtain ⟨h1, h2, h3, h4, h5, h6⟩ := hv
  unfold predict_stage
  rw [if_neg (not_not_intro ⟨h1, h2⟩), if_neg (not_not_intro ⟨h3, h4⟩),
    if_neg (not_not_intro ⟨h5, h6⟩)]
  split_ifs <;> exact ⟨_, rfl⟩

/-- C9: when the remote call fails with a connectivity or rate-limit
error, generate_summary answers with a locally composed report instead of
an error, and that text contains the stage label predict_stage
independently produces on the same scores. -/
theorem generate_summary_fallback_contains_stage :
    ∀ (remote : RemoteResult) (b : Biomarkers) (mmse : ℤ) (cdr adas : ℚ) (stage : String),
      (remote = .apiConnectionError ∨ remote = .rateLimitError) →
      predict_stage mmse cdr adas = .ok stage →
      ∃ text, generate_summary remote b mmse cdr adas = .ok text ∧
        stage.toList <:+: text.toList := by
  rintro remote b m c a stage (rfl | rfl) hstage <;>
  · refine ⟨fallbackPre ++ stage ++ fallbackTail b, ?_, ?_⟩
    · unfold generate_summary generate_fallback_summary
      rw [hstage]
      rfl
    · refine ⟨fallbackPre.toList, (fallbackTail b).toList, ?_⟩
      simp [String.toList]

/-- C9 witness: the fallback on a connectivity failure at scores
(30, 0, 0) and all-zero biomarkers contains the Normal Cognition label. -/
theorem generate_summary_fallback_contains_stage_witness :
    ∃ text,
      generate_summary .apiConnectionError
        ⟨0, 0, 0, 0, none⟩ 30 0 0 = .ok text ∧
      normalLabel.toList <:+: text.toList :=
  generate_summary_fallback_contains_stage .apiConnectionError
    ⟨0, 0, 0, 0, none⟩ 30 0 0 normalLabel (Or.inl rfl) rfl

theorem clean_text_chars_le (s : String) :
    ∀ c ∈ (clean_text s).toList, c.toNat ≤ 255 := by
  intro c hc
  have hc' : c ∈ (replacements.foldl
      (fun t p => String.mk (replaceChar p.1 p.2.toList t.toList)) s).toList.filter
      (fun c => c.toNat ≤ 255) := hc
  exact of_decide_eq_true ((List.mem_filter.mp hc').2)

theorem splitLines_ne_nil (cs : List Char) : splitLines cs ≠ [] := by
  induction cs with
  | nil => simp [splitLines]
  | cons c cs ih =>
    unfold splitLines
    by_cases h : c = '\n'
    · simp [h]
    · simp only [h, if_false]
      cases hs : splitLines cs with
      | nil => simp
      | cons l ls => simp

theorem mem_of_mem_splitLines {cs : List Char} :
    ∀ {l : List Char}, l ∈ splitLines cs → ∀ c, c ∈ l → c ∈ cs := by
  induction cs with
  | nil =>
    intro l hl c hc
    simp only [splitLines, List.mem_singleton] at hl
    subst hl
    cases hc
  | cons a cs ih =>
    intro l hl c hc
    unfold splitLines at hl
    by_cases h : a = '\n'
    · rw [if_pos h] at hl
      rcases List.mem_cons.mp hl with rfl | hl'
      · cases hc
      · exact List.mem_cons_of_mem _ (ih hl' c hc)
    · rw [if_neg h] at hl
      rcases hs : splitLines cs with _ | ⟨l₀, ls⟩
      · exact absurd hs (splitLines_ne_nil cs)
      · rw [hs] at hl
        simp only [List.mem_cons] at hl
        rcases hl with rfl | hl'
        · rcases List.mem_cons.mp hc with rfl | hc'
          · exact List.mem_cons_self _ _
          · refine List.mem_cons_of_mem _ (ih ?_ c hc')
            rw [hs]
            exact List.mem_cons_self l₀ ls
        · refine List.mem_cons_of_mem _ (ih ?_ c hc)
          rw [hs]
          exact List.mem_cons_of_mem l₀ hl' 

theorem mem_renderLine {l : List Char} {c : Char} (h : c ∈ renderLine l) :
    c ∈ l ∨ c = '\n' := by
  unfold renderLine at h
  split_ifs at h with hp
  · rcases List.mem_append.mp h with h1 | h2
    · exact Or.inl (List.mem_of_mem_drop h1)
    · simp only [List.mem_singleton] at h2
      exact Or.inr h2
  · rcases List.mem_append.mp h with h1 | h2
    · exact Or.inl h1
    · simp only [List.mem_singleton] at h2
      exact Or.inr h2

/-- C10: the sanitizer is total and every character it returns is Latin-1
encodable; the listed punctuation is replaced by its ASCII equivalent on a
concrete input holding curly quotes, an em-dash, an ellipsis and an emoji;
and the PDF assembler succeeds on every input with non-empty output. -/
theorem clean_text_latin1_and_create_pdf :
    (∀ (s : String), ∀ c ∈ (clean_text s).toList, c.toNat ≤ 255) ∧
    clean_text "“Smart” — test… 😀’" = "\"Smart\" - test... \x27" ∧
    (∀ (s : String), ∃ bytes, create_pdf s = .ok bytes ∧ bytes ≠ []) := by
  refine ⟨clean_text_chars_le, by decide, ?_⟩
  intro s
  have hcontent : ∀ c ∈ pdfHeader.toList ++
      ((splitLines (clean_text s).toList).map renderLine).flatten, c.toNat ≤ 255 := by
    intro c hc
    rcases List.mem_append.mp hc with h | h
    · have hhdr : ∀ x ∈ pdfHeader.toList, x.toNat ≤ 255 := by decide
      exact hhdr c h
    · rcases List.mem_flatten.mp h with ⟨part, hpart, hcpart⟩
      rcases List.mem_map.mp hpart with ⟨l, hl, rfl⟩
      rcases mem_renderLine hcpart with h1 | rfl
      · exact clean_text_chars_le s c (mem_of_mem_splitLines hl c h1)
      · decide
  have hall : (pdfHeader.toList ++
      ((splitLines (clean_text s).toList).map renderLine).flatten).all
      (fun c => c.toNat ≤ 255) = true :=
    List.all_eq_true.mpr (fun c hc => decide_eq_true (hcontent c hc))
  have henc : latin1Encode (pdfHeader.toList ++
      ((splitLines (clean_text s).toList).map renderLine).flatten) =
      some ((pdfHeader.toList ++
        ((splitLines (clean_text s).toList).map renderLine).flatten).map Char.toNat) := by
    unfold latin1Encode
    rw [if_pos hall]
  refine ⟨(pdfHeader.toList ++
      ((splitLines (clean_text s).toList).map renderLine).flatten).map Char.toNat, ?_, ?_⟩
  · have hcp : create_pdf s = (match latin1Encode (pdfHeader.toList ++
        ((splitLines (clean_text s).toList).map renderLine).flatten) with
        | some bytes => Except.ok bytes
        | none => Except.error (PyError.runtimeError "Failed to generate PDF report")) := rfl
    rw [hcp, henc]
  · refine List.length_pos.mp ?_
    rw [List.length_map, List.length_append]
    have hpos : 0 < pdfHeader.toList.length := by decide
    omega

theorem generate_report_eval {stats : StatsDir} {png : List ℕ} {text sid : String}
    {mmse : ℤ} {cdr adas : ℚ} {s : String} (hs : predict_stage mmse cdr adas = .ok s) :
    generate_report stats (some png) (.success text) sid mmse cdr adas =
      .error (.nameError "summary") := by
  unfold generate_report
  rw [hs]
  rfl

/-- C1 (code bug): for every statistics directory, present preview image,
successful remote summary and validated scores, generate_report does not
return the claimed report: evaluating the unbound name summary in the
pdf_report entry raises NameError, and /api/analyze answers with an error
response instead of the report payload. -/
theorem generate_report_raises_nameerror :
    ∀ (stats : StatsDir) (png : List ℕ) (text sid : String) (mmse : ℤ) (cdr adas : ℚ),
      validScores mmse cdr adas →
      generate_report stats (some png) (.success text) sid mmse cdr adas =
        .error (.nameError "summary") ∧
      (analyze_results stats (some png) (.success text) sid mmse cdr adas).status =
        "error" := by
  intro stats png text sid m c a hv
  obtain ⟨s, hs⟩ := predict_stage_ok_of_valid hv
  have hrep : generate_report stats (some png) (.success text) sid m c a =
      .error (.nameError "summary") := generate_report_eval hs
  exact ⟨hrep, by simp [analyze_results, hrep]⟩

/-- C1 witness: the NameError at concrete inputs (preview bytes present,
remote summary succeeds, scores 30, 0, 0). -/
theorem generate_report_raises_nameerror_witness :
    generate_report epsilonStats (some [137, 80]) (.success "remote report") "sub-1" 30 0 0 =
      .error (.nameError "summary") ∧
    (analyze_results epsilonStats (some [137, 80]) (.success "remote report")
      "sub-1" 30 0 0).status = "error" :=
  generate_report_raises_nameerror epsilonStats [137, 80] "remote report" "sub-1" 30 0 0
    (by decide)

/-- C10 witness: the Latin-1 bound applied to a character of a concrete
sanitized string, and the PDF assembler applied to a concrete input. -/
theorem clean_text_latin1_and_create_pdf_witness :
    ('h').toNat ≤ 255 ∧ ∃ bytes, create_pdf "hello" = .ok bytes ∧ bytes ≠ [] :=
  ⟨clean_text_latin1_and_create_pdf.1 "hello" 'h' (by decide),
    clean_text_latin1_and_create_pdf.2.2 "hello"⟩

/-- C2 (code bug): upload_mri never consults validate_nifti_filename — a
filename the validator rejects is still forwarded to process_mri, and when
the container run completes the upload answers success with a fresh
subject id instead of rejecting the request. -/
theorem upload_mri_accepts_any_filename :
    (∀ (freshId : String) (contents : List ℕ) (filename : String),
        validate_nifti_filename filename = false →
        upload_mri freshId .completed contents filename =
          { status := "success", subject_id := some ("sub-" ++ freshId),
            message := "MRI processing started" }) ∧
    validate_nifti_filename "scan.txt" = false := by
  exact ⟨fun _ _ _ _ => rfl, by decide⟩

/-- C2 witness: the concrete non-NIfTI filename scan.txt is accepted and
processed. -/
theorem upload_mri_accepts_any_filename_witness :
    upload_mri "abc12345" .completed [1, 2, 3] "scan.txt" =
      { status := "success", subject_id := some "sub-abc12345",
        message := "MRI processing started" } :=
  upload_mri_accepts_any_filename.1 "abc12345" [1, 2, 3] "scan.txt" (by decide)

end AlzMRI
